import Mathlib

/-!
Shallow embedding of the synqui/vaquero trace-collection core:

* `src/vaquero/processors/langgraph_processor.py` — `LangGraphProcessor`
  (`add_span`, `process_trace`, helpers, `detect_framework`);
* `src/vaquero/trace_collector_unified.py` — `UnifiedTraceCollector`
  (`process_span`, `_detect_framework`, `finalize_trace`);
* `src/vaquero/chat_session.py` — `ChatSession` and `ChatSessionManager`
  (`should_end_session`, `end_session`, `cleanup_expired_sessions`,
  `_notify_timeout_callbacks`).

Modelling conventions, used throughout:

* A Python dict field that may be absent is an `Option`; `none` is an absent
  key, so `d.get(k, dflt)` is `field.getD dflt` and `d.get(k)` is the field
  itself.  Python truthiness of an optional string (`if s:`) is `truthy`:
  present and non-empty.
* Timestamps are integers (microseconds UTC).  The source stores them as
  fixed-width UTC ISO-8601 strings and takes lexical `min`/`max`, which on
  that format agrees with chronological order, so integer `min`/`max` is
  order-isomorphic to the source's string handling; `duration` in the source
  is whole elapsed units between the two, here plain integer subtraction.
* `datetime.utcnow()` is an injectable clock: every function that reads the
  wall clock takes an explicit `now : Int` argument (microseconds).
* Costs are exact rationals (`ℚ`), tokens are naturals.
* Side effects are explicit: log warnings/errors are accumulated message
  lists, callback invocation is the returned list of invoked callback ids,
  dispatch to the backend is a `sent` list on the collector state.
* A Python operation that can raise is embedded in `Except String`; in
  particular subscripting a possibly-`None` value (`chat_session_id[:8]`)
  fails on `none` exactly as Python raises `TypeError` on `None`.
* Python `dict`s that the code iterates over are insertion-ordered
  association lists (`List (String × β)`) with get-or-create by key, which
  matches CPython's ordered-dict semantics.
-/

/-- Python truthiness of an optional string: `if s:` is true exactly when the
value is present and non-empty. -/
def truthy : Option String → Bool
  | none => false
  | some s => !(s.isEmpty)

/-- Lookup in an insertion-ordered association list (Python `d[k]` / `k in d`). -/
def alookup {β : Type} (l : List (String × β)) (k : String) : Option β :=
  (l.find? (fun p => p.1 = k)).map (·.2)

/-- Point update of an association list (Python `d[k] = f(d[k])` on an existing key). -/
def aupdate {β : Type} (l : List (String × β)) (k : String) (f : β → β) :
    List (String × β) :=
  l.map (fun p => if p.1 = k then (p.1, f p.2) else p)

/-- Deletion from an association list (Python `del d[k]`). -/
def aerase {β : Type} (l : List (String × β)) (k : String) : List (String × β) :=
  l.filter (fun p => p.1 ≠ k)

/-- One span record handed to `process_span` — the optional-field subset of the
span payload that the collector and the LangGraph processor actually read
(`src/vaquero/processors/langgraph_processor.py`, `trace_collector_unified.py`).
`metadata_lower` stands for `str(span_data.get('metadata', {})).lower()`, the
only use the embedded code makes of the metadata map. -/
structure Span where
  trace_id : Option String := none
  agent_name : Option String := none
  component_type : Option String := none
  start_time : Option Int := none
  end_time : Option Int := none
  status : Option String := none
  input_tokens : Option Nat := none
  output_tokens : Option Nat := none
  cost : Option ℚ := none
  model_name : Option String := none
  model_provider : Option String := none
  model_parameters : Option String := none
  session_id : Option String := none
  chat_session_id : Option String := none
  agent_orchestration_id : Option String := none
  message_type : Option String := none
  message_sequence : Option Nat := none
  framework : Option String := none
  metadata_lower : String := ""
  deriving Repr, DecidableEq

/-- A `self.agents[agent_name]` entry of `LangGraphProcessor` (`add_span`,
lines 71-81): the dict created with `name`, `level`, `framework='langgraph'`,
`component_type`, `parent_agent_id=None`, `spans=[]`.  The
`agent_orchestration_id` key is never written on these entries, so the field
is `Option` and stays `none`; `process_trace` reads it with default
`'default'`. -/
structure AgentData where
  name : String
  level : Nat
  component_type : String
  parent_agent_id : Option String := none
  spans : List Span := []
  agent_orchestration_id : Option String := none
  deriving Repr, DecidableEq

/-- An agent entry appended to an orchestration bucket (`add_span`, lines
52-67).  These entries are accumulated in `self.agent_orchestrations` but are
never read back by `process_trace` (only the bucket count is). -/
structure OrchAgentData where
  name : String
  level : Nat
  component_type : String
  parent_agent_id : Option String := none
  spans : List Span := []
  session_id : Option String := none
  chat_session_id : Option String := none
  agent_orchestration_id : String
  message_type : String
  message_sequence : Nat
  deriving Repr, DecidableEq

/-- A `self.agent_orchestrations[id]` entry (`add_span`, lines 32-41). -/
structure OrchData where
  id : String
  session_id : Option String := none
  chat_session_id : Option String := none
  agents : List OrchAgentData := []
  start_time : Option Int := none
  end_time : Option Int := none
  status : String := "completed"
  deriving Repr, DecidableEq

/-- The mutable state of one `LangGraphProcessor` (`__init__`, lines 13-16):
`self.agents`, `self.spans`, `self.agent_orchestrations`. -/
structure LGState where
  agents : List (String × AgentData) := []
  spans : List Span := []
  agent_orchestrations : List (String × OrchData) := []
  deriving Repr, DecidableEq

/-- `LangGraphProcessor.__init__`: all three containers start empty. -/
def LGState.init : LGState := {}

/-- Level assignment in `add_span` (lines 44-49): `'agent'` is level 2,
`'llm'/'tool'/'chain'/'prompt'` are level 3, anything else defaults to 2. -/
def levelOf (component_type : String) : Nat :=
  if component_type = "agent" then 2
  else if component_type = "llm" ∨ component_type = "tool" ∨
      component_type = "chain" ∨ component_type = "prompt" then 3
  else 2

/-- `LangGraphProcessor.add_span` (lines 18-82): buffer the span, create the
orchestration bucket on first truthy `agent_orchestration_id`, then either
append an agent entry to that bucket or accumulate the span under its
`agent_name` in `self.agents`. -/
def LGState.addSpan (st : LGState) (sd : Span) : LGState :=
  let st : LGState := { st with spans := st.spans ++ [sd] }
  let agent_name := sd.agent_name.getD ""
  let component_type := sd.component_type.getD "agent"
  let session_id := sd.session_id
  let chat_session_id := sd.chat_session_id
  let agent_orchestration_id := sd.agent_orchestration_id
  let st : LGState :=
    if truthy agent_orchestration_id ∧
        (alookup st.agent_orchestrations (agent_orchestration_id.getD "")).isNone then
      { st with agent_orchestrations := st.agent_orchestrations ++
          [(agent_orchestration_id.getD "",
            { id := agent_orchestration_id.getD ""
              session_id := session_id
              chat_session_id := chat_session_id
              agents := []
              start_time := sd.start_time
              end_time := sd.end_time
              status := sd.status.getD "completed" })] }
    else st
  let level := levelOf component_type
  if truthy agent_orchestration_id then
    let agent_data : OrchAgentData :=
      { name := agent_name
        level := level
        component_type := component_type
        parent_agent_id := none
        spans := [sd]
        session_id := session_id
        chat_session_id := chat_session_id
        agent_orchestration_id := agent_orchestration_id.getD ""
        message_type := sd.message_type.getD "agent_response"
        message_sequence := sd.message_sequence.getD 0 }
    { st with agent_orchestrations :=
        (aupdate st.agent_orchestrations (agent_orchestration_id.getD "")
          (fun o => { o with agents := o.agents ++ [agent_data] })) }
  else
    let st : LGState :=
      if (alookup st.agents agent_name).isNone then
        { st with agents := st.agents ++
            [(agent_name,
              { name := agent_name
                level := level
                component_type := component_type
                parent_agent_id := none
                spans := [] })] }
      else st
    { st with agents :=
        (aupdate st.agents agent_name (fun a => { a with spans := a.spans ++ [sd] })) }


/-- The `model_info` dict produced by `_extract_model_info` (lines 248-259):
empty (all fields absent) or the three fields of the first span with a truthy
`model_name`. -/
structure ModelInfo where
  model_name : Option String := none
  model_provider : Option String := none
  model_parameters : Option String := none
  deriving Repr, DecidableEq

/-- `LangGraphProcessor._extract_model_info` (lines 248-259). -/
def extractModelInfo (spans : List Span) : ModelInfo :=
  match spans.find? (fun s => truthy s.model_name) with
  | some s =>
      { model_name := s.model_name
        model_provider := s.model_provider
        model_parameters := s.model_parameters }
  | none => {}

/-- `LangGraphProcessor._get_earliest_start_time` (lines 261-264): minimum of
the present start times, `none` when no span has one.  (The source filters by
truthiness of the ISO string and takes the lexical `min`; present timestamps
are non-empty strings and lexical order on the fixed-width format is
chronological order, so this is `min` over the present integer timestamps.) -/
def getEarliestStartTime (spans : List Span) : Option Int :=
  (spans.filterMap (fun s => s.start_time)).min?

/-- `LangGraphProcessor._get_latest_end_time` (lines 266-269). -/
def getLatestEndTime (spans : List Span) : Option Int :=
  (spans.filterMap (fun s => s.end_time)).max?

/-- `LangGraphProcessor._calculate_duration` (lines 271-280): elapsed time
between earliest start and latest end when both exist, else 0. -/
def calculateDuration (spans : List Span) : Int :=
  match getEarliestStartTime spans, getLatestEndTime spans with
  | some s, some e => e - s
  | _, _ => 0

/-- The session-extraction loop of `process_trace` (lines 90-97):
`trace_session_id` takes the latest truthy `session_id` seen so far; the loop
breaks at the first truthy `chat_session_id`. -/
def extractSessionIds : List Span → Option String → Option String × Option String
  | [], trace_session_id => (trace_session_id, none)
  | s :: rest, trace_session_id =>
      let trace_session_id :=
        if truthy s.session_id then s.session_id else trace_session_id
      if truthy s.chat_session_id then (trace_session_id, s.chat_session_id)
      else extractSessionIds rest trace_session_id

/-- An `agent_groups[orchestration_id]` value of `process_trace` (lines
124-133): the `{'agents': [...], 'components': [...]}` dict. -/
structure AgentGroup where
  agents : List AgentData := []
  components : List AgentData := []
  deriving Repr, DecidableEq

/-- The grouping loop of `process_trace` (lines 124-133): bucket `self.agents`
entries by `agent_data.get('agent_orchestration_id', 'default')`, splitting
each bucket into level-2 agents and other-level components. -/
def buildAgentGroups (ags : List (String × AgentData)) : List (String × AgentGroup) :=
  ags.foldl
    (fun groups p =>
      let orchestration_id := p.2.agent_orchestration_id.getD "default"
      let groups :=
        if (alookup groups orchestration_id).isNone then
          groups ++ [(orchestration_id, ({} : AgentGroup))]
        else groups
      if p.2.level = 2 then
        aupdate groups orchestration_id (fun g => { g with agents := g.agents ++ [p.2] })
      else
        aupdate groups orchestration_id
          (fun g => { g with components := g.components ++ [p.2] }))
    []

/-- The common field set of the agent-entry dicts built by `process_trace`.
Keys a given dict variant does not carry (`duration`, `total_tokens`,
`total_cost`, `model_info` on session/orchestration entries;
`chat_session_id` on standalone entries) stay at their `none`/default
values. -/
structure NodeFields where
  name : String
  level : Nat
  framework : String := "langgraph"
  component_type : String
  parent_agent_id : Option String := none
  session_id : Option String := none
  chat_session_id : Option String := none
  start_time : Option Int := none
  end_time : Option Int := none
  duration : Option Int := none
  status : String := "completed"
  total_tokens : Option Nat := none
  total_cost : Option ℚ := none
  model_info : ModelInfo := {}
  deriving Repr, DecidableEq

/-- An agent-entry node: its fields plus the nested `agents` children list. -/
inductive Node where
  | node (fields : NodeFields) (children : List Node)

/-- The fields of a node. -/
def Node.fields : Node → NodeFields
  | .node f _ => f

/-- The nested `agents` children of a node. -/
def Node.children : Node → List Node
  | .node _ c => c

/-- The `name` field of a node. -/
def Node.name (n : Node) : String := n.fields.name

/-- The `level` field of a node. -/
def Node.level (n : Node) : Nat := n.fields.level

mutual

/-- A node together with all its descendants, in preorder. -/
def Node.subNodes : Node → List Node
  | .node f cs => Node.node f cs :: Node.subNodesList cs

/-- All nodes of a forest together with their descendants, in preorder. -/
def Node.subNodesList : List Node → List Node
  | [] => []
  | n :: ns => n.subNodes ++ Node.subNodesList ns

end

/-- The trace-level `metadata` dict built by `process_trace` (lines 236-242). -/
structure TraceMetadata where
  framework : String := "langgraph"
  session_id : Option String := none
  chat_session_id : Option String := none
  agent_count : Nat := 0
  orchestration_count : Nat := 0
  deriving Repr, DecidableEq

/-- Modelled from the spec: the `HierarchicalTrace` dataclass is defined in
`src/vaquero/processors/base_processor.py`, which is not among the provided
sources; spec §3 gives its shape — `trace_id`, `name`, the ordered agent-entry
nodes, a `dependencies` placeholder (always empty here), and `metadata`.  The
constructor call in `process_trace` (lines 231-243) fixes the same field
set. -/
structure HierarchicalTrace where
  trace_id : String
  name : String
  agents : List Node
  dependencies : List String := []
  metadata : TraceMetadata

/-- Python subscripting `s[:8]` of a possibly-`None` value: raises on `None`
(`TypeError`), else takes the first 8 characters. -/
def pySubscript8 : Option String → Except String String
  | none => Except.error "TypeError: NoneType object is not subscriptable"
  | some s => Except.ok (s.take 8)

/-- The token aggregation applied to one span in `process_trace` (lines 155,
209): `span.get('input_tokens', 0) + span.get('output_tokens', 0)`. -/
def tokensOf (s : Span) : Nat := s.input_tokens.getD 0 + s.output_tokens.getD 0

/-- The cost aggregation applied to one span in `process_trace` (lines 156,
210): `span.get('cost', 0)`. -/
def costOf (s : Span) : ℚ := s.cost.getD 0

/-- The `component_entry` dict of `process_trace` (lines 179-192): a level-4
child attached under an agent entry. -/
def mkComponentNode (trace_session_id chat_session_id : Option String)
    (agent_name : String) (cd : AgentData) : Node :=
  Node.node
    { name := cd.name
      level := 4
      component_type := cd.component_type
      parent_agent_id := some agent_name
      session_id := trace_session_id
      chat_session_id := chat_session_id
      start_time := getEarliestStartTime cd.spans
      end_time := getLatestEndTime cd.spans
      duration := some (calculateDuration cd.spans) } []

/-- The `agent_entry` dict of the session branch of `process_trace` (lines
153-195): a level-3 agent node, token/cost sums over exactly that agent's own
accumulated spans, with level-4 children the group components whose
`parent_agent_id` names this agent. -/
def mkAgentNode (trace_session_id chat_session_id : Option String)
    (orchestration_name : String) (group : AgentGroup) (agent_data : AgentData) :
    Node :=
  let model_info := extractModelInfo agent_data.spans
  let total_tokens := (agent_data.spans.map tokensOf).sum
  let total_cost := (agent_data.spans.map costOf).sum
  let component_nodes :=
    ((group.components.filter
        (fun cd => cd.parent_agent_id = some agent_data.name)).map
      (mkComponentNode trace_session_id chat_session_id agent_data.name))
  Node.node
    { name := agent_data.name
      level := 3
      component_type := "agent"
      parent_agent_id := some orchestration_name
      session_id := trace_session_id
      chat_session_id := chat_session_id
      start_time := getEarliestStartTime agent_data.spans
      end_time := getLatestEndTime agent_data.spans
      duration := some (calculateDuration agent_data.spans)
      total_tokens := some total_tokens
      total_cost := some total_cost
      model_info := model_info } component_nodes

/-- The `orchestration_entry` dict of `process_trace` (lines 136-198): a
level-2 node spanning its group's agent spans, with the group's level-2
agents as level-3 children. -/
def mkOrchestrationNode (trace_session_id chat_session_id : Option String)
    (session_name : String) (pg : String × AgentGroup) : Node :=
  let orchestration_id := pg.1
  let group := pg.2
  let orchestration_name :=
    if orchestration_id ≠ "default" then
      "agent_orchestration_" ++ orchestration_id.take 8
    else "agent_orchestration"
  let group_spans := (group.agents.map (fun a => a.spans)).flatten
  let agent_nodes := group.agents.map
    (mkAgentNode trace_session_id chat_session_id orchestration_name group)
  Node.node
    { name := orchestration_name
      level := 2
      component_type := "agent_orchestration"
      parent_agent_id := some session_name
      session_id := trace_session_id
      chat_session_id := chat_session_id
      start_time := getEarliestStartTime group_spans
      end_time := getLatestEndTime group_spans } agent_nodes

/-- The standalone `agent_entry` dict of the fallback branch of
`process_trace` (lines 204-228): a flat level-1 node per `self.agents`
entry. -/
def mkStandaloneNode (trace_session_id : Option String) (p : String × AgentData) :
    Node :=
  let agent_data := p.2
  let model_info := extractModelInfo agent_data.spans
  let total_tokens := (agent_data.spans.map tokensOf).sum
  let total_cost := (agent_data.spans.map costOf).sum
  Node.node
    { name := p.1
      level := 1
      component_type := "agent"
      parent_agent_id := none
      session_id := trace_session_id
      start_time := getEarliestStartTime agent_data.spans
      end_time := getLatestEndTime agent_data.spans
      duration := some (calculateDuration agent_data.spans)
      total_tokens := some total_tokens
      total_cost := some total_cost
      model_info := model_info } []

/-- `LangGraphProcessor.process_trace` (lines 84-246).  Session branch: one
level-1 session node over all spans, level-2 orchestration nodes from
`buildAgentGroups`, level-3 agent nodes with token/cost sums over that agent's
own spans, level-4 component children filtered by `parent_agent_id`; the
output list is the session node followed by the orchestration nodes.
Fallback branch: one flat level-1 node per `self.agents` entry. -/
def LGState.processTrace (st : LGState) (trace_id : String) :
    Except String HierarchicalTrace := do
  let (trace_session_id, chat_session_id) := extractSessionIds st.spans none
  let agents ←
    if truthy chat_session_id then do
      let sessionTag ← pySubscript8 chat_session_id
      let session_name := "chat_session_" ++ sessionTag
      let agent_groups := buildAgentGroups st.agents
      let orchestration_nodes := agent_groups.map
        (mkOrchestrationNode trace_session_id chat_session_id session_name)
      let session_node := Node.node
        { name := session_name
          level := 1
          component_type := "session_orchestration"
          parent_agent_id := none
          session_id := trace_session_id
          chat_session_id := chat_session_id
          start_time := getEarliestStartTime st.spans
          end_time := getLatestEndTime st.spans } orchestration_nodes
      pure (session_node :: orchestration_nodes)
    else
      pure (st.agents.map (mkStandaloneNode trace_session_id))
  pure
    { trace_id := trace_id
      name := if truthy chat_session_id then "LangGraph Session" else "LangGraph Workflow"
      agents := agents
      dependencies := []
      metadata :=
        { framework := "langgraph"
          session_id := trace_session_id
          chat_session_id := chat_session_id
          agent_count := agents.length
          orchestration_count := st.agent_orchestrations.length } }

/-- `p` occurs as a contiguous sublist of `s` (Boolean substring test). -/
def listInfix (p s : List Char) : Bool :=
  (List.range (s.length + 1)).any (fun i => List.isPrefixOf p (s.drop i))

/-- Python `pat in s` on strings. -/
def strContains (s pat : String) : Bool := listInfix pat.toList s.toList

/-- `LangGraphProcessor.detect_framework` (lines 282-293): agent-name prefix,
`'langgraph'` occurring in the lowered metadata repr, explicit `framework`
field, or mere presence (`is not None`) of a `chat_session_id`. -/
def detectLanggraph (sd : Span) : Bool :=
  (sd.agent_name.getD "").startsWith "langgraph:" ||
  strContains sd.metadata_lower "langgraph" ||
  sd.framework == some "langgraph" ||
  sd.chat_session_id.isSome

/-- The two framework processors held in `UnifiedTraceCollector.processors`. -/
inductive Framework where
  | langchain
  | langgraph
  deriving Repr, DecidableEq

/-- Modelled from the spec: `LangChainProcessor` is imported from
`src/vaquero/processors/__init__.py`, which is not among the provided
sources.  Spec §4.2 describes every processor's state as a buffered span
list with per-agent accumulation; only the buffer is observable by the
collector-level claims settled here, so the state is the ordered buffer. -/
structure LCState where
  spans : List Span := []
  deriving Repr, DecidableEq

/-- Modelled from the spec: the LangChain processor's `add_span` buffers the
consumed span (spec §2: a processor "consumes spans", §4.1: "the span is then
appended into the processor's buffer"). -/
def LCState.addSpan (st : LCState) (sd : Span) : LCState :=
  { st with spans := st.spans ++ [sd] }

/-- Modelled from the spec: the LangChain processor's `process_trace` is not
among the sources; spec §4.2 step 3 (no session) yields one flat level-1 node
per distinct `agent_name`, no deeper nesting.  Only its totality is relied on
by the claims settled here. -/
def LCState.processTrace (st : LCState) (trace_id : String) : HierarchicalTrace :=
  let names := (st.spans.map (fun s => s.agent_name.getD "")).dedup
  { trace_id := trace_id
    name := "LangChain Workflow"
    agents := names.map (fun a =>
      Node.node { name := a, level := 1, component_type := "agent" } [])
    dependencies := []
    metadata := { framework := "langchain" } }

/-- The mutable state of `UnifiedTraceCollector` (`__init__`, lines 31-42):
the two shared processor instances created once in `self.processors`, the
`trace_id → processor` assignment map, and the observable log/dispatch
effects.  The map stores which of the two shared instances a trace_id was
assigned to — the source stores object references into the one `processors`
dict, so two trace_ids assigned the same framework share one processor
instance and hence one buffer. -/
structure CollectorState where
  lgProcessor : LGState := {}
  lcProcessor : LCState := {}
  trace_processors : List (String × Framework) := []
  warnings : List String := []
  errors : List String := []
  sent : List HierarchicalTrace := []

/-- `UnifiedTraceCollector.__init__`: fresh shared processors, empty map. -/
def CollectorState.init : CollectorState := {}

/-- `UnifiedTraceCollector._detect_framework` (lines 64-75): LangGraph is
checked first; both the LangChain-detected branch and the default branch
return `'langchain'`, so the result does not depend on the LangChain
processor's (missing) detector. -/
def detectFramework (sd : Span) : Framework :=
  if detectLanggraph sd then Framework.langgraph else Framework.langchain

/-- `UnifiedTraceCollector.process_span` (lines 44-62): skip (with a warning)
when `trace_id` is falsy; otherwise assign a processor on first sight of the
trace_id and append the span to the assigned shared processor's buffer. -/
def CollectorState.processSpan (st : CollectorState) (sd : Span) : CollectorState :=
  let trace_id := sd.trace_id
  if !(truthy trace_id) then
    { st with warnings := st.warnings ++ ["Span has no trace_id, skipping"] }
  else
    let tid := trace_id.getD ""
    let st :=
      if (alookup st.trace_processors tid).isNone then
        { st with trace_processors := st.trace_processors ++ [(tid, detectFramework sd)] }
      else st
    match alookup st.trace_processors tid with
    | some Framework.langgraph => { st with lgProcessor := st.lgProcessor.addSpan sd }
    | some Framework.langchain => { st with lcProcessor := st.lcProcessor.addSpan sd }
    | none => st

/-- `UnifiedTraceCollector.finalize_trace` (lines 77-110): unknown trace_id is
a warning-only no-op; otherwise the assigned processor reconstructs, success
dispatches the trace (`_send_to_database` catches internally and never
raises), an exception is caught and logged, and the `finally` block deletes
the trace_id from the map in either case. -/
def CollectorState.finalizeTrace (st : CollectorState) (trace_id : String) :
    CollectorState :=
  match alookup st.trace_processors trace_id with
  | none =>
      { st with warnings := st.warnings ++ ["No processor found for trace " ++ trace_id] }
  | some fw =>
      let result : Except String HierarchicalTrace :=
        match fw with
        | Framework.langgraph => st.lgProcessor.processTrace trace_id
        | Framework.langchain => Except.ok (st.lcProcessor.processTrace trace_id)
      let st :=
        match result with
        | Except.ok ht => { st with sent := st.sent ++ [ht] }
        | Except.error e =>
            { st with errors := st.errors ++
                ["Failed to finalize trace " ++ trace_id ++ ": " ++ e] }
      { st with trace_processors := aerase st.trace_processors trace_id }

/-- Microseconds per minute: `timedelta(minutes=m)` compared at `datetime`'s
microsecond resolution. -/
def usPerMinute : Int := 60000000

/-- `ChatSession` state (`chat_session.py`, `__init__`, lines 15-57).
Clock values are microseconds UTC; callbacks are opaque ids, and invoking a
callback is recorded as its id in a returned event list. -/
structure ChatSession where
  session_id : String := ""
  name : String := ""
  session_type : String := "chat"
  timeout_minutes : Int := 30
  max_duration_minutes : Int := 240
  start_time : Int := 0
  last_activity : Int := 0
  end_time : Option Int := none
  message_count : Nat := 0
  total_tokens : Nat := 0
  total_cost : ℚ := 0
  status : String := "active"
  timeout_callbacks : List String := []
  deriving Repr, DecidableEq

/-- `ChatSession._notify_timeout_callbacks` (lines 97-103): every registered
callback is invoked in order; a callback's failure is caught and logged
individually and does not stop the others.  The result is the ordered list of
invoked callback ids. -/
def ChatSession.notifyTimeoutCallbacks (s : ChatSession) : List String :=
  s.timeout_callbacks

/-- `ChatSession.should_end_session` (lines 105-132) at clock `now`: the idle
timeout is checked first, then the max duration; a true result also mutates
`status` (to `'timeout'` or `'ended'`) and synchronously fires the timeout
callbacks before returning.  Returns (result, updated session, invoked
callback ids). -/
def ChatSession.shouldEndSession (s : ChatSession) (now : Int) :
    Bool × ChatSession × List String :=
  let time_since_activity := now - s.last_activity
  let session_duration := now - s.start_time
  let timeout_reached := time_since_activity > s.timeout_minutes * usPerMinute
  let max_duration_reached :=
    session_duration > s.max_duration_minutes * usPerMinute
  if timeout_reached then
    let s := { s with status := "timeout" }
    (true, s, s.notifyTimeoutCallbacks)
  else if max_duration_reached then
    let s := { s with status := "ended" }
    (true, s, s.notifyTimeoutCallbacks)
  else (false, s, [])

/-- `ChatSession.end_session` (lines 134-142) at clock `now`: records the end
time and overwrites `status` with the given reason. -/
def ChatSession.endSession (s : ChatSession) (reason : String) (now : Int) :
    ChatSession :=
  { s with end_time := some now, status := reason }

/-- `ChatSessionManager` (`__init__`, lines 192-195): the session map. -/
structure ChatSessionManager where
  sessions : List (String × ChatSession) := []
  deriving Repr, DecidableEq

/-- `ChatSessionManager.cleanup_expired_sessions` (lines 259-275) at clock
`now`.  First pass: `should_end_session()` runs on every tracked session —
mutating it and firing its callbacks when it returns true — collecting the
expired ids.  Second pass: each expired id is popped from the map and
`end_session("timeout")` is applied to the popped object.  Returns (manager
after the sweep, removal count, invoked callback ids, popped sessions after
their `end_session`). -/
def ChatSessionManager.cleanupExpiredSessions (m : ChatSessionManager) (now : Int) :
    ChatSessionManager × Nat × List String × List (String × ChatSession) :=
  let pass := m.sessions.map (fun p =>
    let r := p.2.shouldEndSession now
    (p.1, r.2.1, r.1, r.2.2))
  let sessions := pass.map (fun q => (q.1, q.2.1))
  let expired_sessions := (pass.filter (fun q => q.2.2.1)).map (fun q => q.1)
  let events := (pass.map (fun q => q.2.2.2)).flatten
  let removed := expired_sessions.filterMap (fun sid =>
    (alookup sessions sid).map (fun s => (sid, s.endSession "timeout" now)))
  let remaining := sessions.filter (fun p => ¬ p.1 ∈ expired_sessions)
  ({ sessions := remaining }, expired_sessions.length, events, removed)

/-- A processor state reached by buffering a span stream into a fresh
`LangGraphProcessor` via `add_span`. -/
def buildLGState (spans : List Span) : LGState :=
  spans.foldl LGState.addSpan LGState.init

/-- The spans `add_span` accumulates under agent name `a` in `self.agents`:
those with a falsy `agent_orchestration_id` whose (defaulted) `agent_name`
is `a`. -/
def standaloneWithName (a : String) (sd : Span) : Bool :=
  !(truthy sd.agent_orchestration_id) && (sd.agent_name.getD "" == a)

/-- `n` consecutive `should_end_session()` calls on one session object at the
same clock, accumulating the fired callback events. -/
def iterShouldEnd (s : ChatSession) (now : Int) : Nat → ChatSession × List String
  | 0 => (s, [])
  | n + 1 =>
      let r := s.shouldEndSession now
      let rest := iterShouldEnd r.2.1 now n
      (rest.1, r.2.2 ++ rest.2)

/-- A session past its max duration but still within its idle timeout at
clock `241 * usPerMinute`: started 241 minutes ago, active just now. -/
def sessionLongRun : ChatSession :=
  { session_id := "long", timeout_minutes := 30, max_duration_minutes := 240,
    start_time := 0, last_activity := 241 * usPerMinute,
    timeout_callbacks := ["on_timeout"] }

/-- A span of trace `"t1"` carrying a chat session id (hence detected as
LangGraph). -/
def spanT1 : Span :=
  { trace_id := some "t1", agent_name := some "a1", chat_session_id := some "s" }

/-- A span of a different trace `"t2"`, also detected as LangGraph. -/
def spanT2 : Span :=
  { trace_id := some "t2", agent_name := some "a2", chat_session_id := some "s" }

/-- Scenario B, span 1: agent "developer" in orchestration "o1". -/
def spanDeveloper : Span :=
  { trace_id := some "t", chat_session_id := some "s1",
    agent_orchestration_id := some "o1", agent_name := some "developer",
    component_type := some "agent" }

/-- Scenario B, span 2: agent "summarizer" in orchestration "o1". -/
def spanSummarizer : Span :=
  { trace_id := some "t", chat_session_id := some "s1",
    agent_orchestration_id := some "o1", agent_name := some "summarizer",
    component_type := some "agent" }

/-- Scenario B, span 3: agent "explainer" with no orchestration id. -/
def spanExplainer : Span :=
  { trace_id := some "t", chat_session_id := some "s1",
    agent_name := some "explainer", component_type := some "agent" }

/-- The processor state after buffering the three Scenario B spans. -/
def scenarioBState : LGState :=
  buildLGState [spanDeveloper, spanSummarizer, spanExplainer]

/-- The single `self.agents` entry Scenario B produces ("explainer"). -/
def scenarioBAgentData : AgentData :=
  { name := "explainer", level := 2, component_type := "agent",
    parent_agent_id := none, spans := [spanExplainer],
    agent_orchestration_id := none }

/-- The single (default) agent group Scenario B produces. -/
def scenarioBGroup : AgentGroup :=
  { agents := [scenarioBAgentData], components := [] }

/-- The level-2 default-bucket node Scenario B produces. -/
def scenarioBOrchNode : Node :=
  mkOrchestrationNode none (some "s1") "chat_session_s1"
    ("default", scenarioBGroup)

/-- The level-3 "explainer" agent node Scenario B produces. -/
def scenarioBAgentNode : Node :=
  mkAgentNode none (some "s1") "agent_orchestration" scenarioBGroup
    scenarioBAgentData

/-- The level-1 session root Scenario B produces. -/
def scenarioBSessionNode : Node :=
  Node.node
    { name := "chat_session_s1"
      level := 1
      component_type := "session_orchestration"
      parent_agent_id := none
      session_id := none
      chat_session_id := some "s1"
      start_time := none
      end_time := none } [scenarioBOrchNode]

/-- The full hierarchical trace Scenario B finalizes into. -/
def scenarioBTrace : HierarchicalTrace :=
  { trace_id := "t"
    name := "LangGraph Session"
    agents := [scenarioBSessionNode, scenarioBOrchNode]
    dependencies := []
    metadata :=
      { framework := "langgraph"
        session_id := none
        chat_session_id := some "s1"
        agent_count := 2
        orchestration_count := 1 } }

theorem alookup_cons {β : Type} (p : String × β) (l : List (String × β))
    (k : String) :
    alookup (p :: l) k = if p.1 = k then some p.2 else alookup l k := by
  by_cases h : p.1 = k <;> simp [alookup, List.find?_cons, h]

theorem alookup_append_left {β : Type} {l1 : List (String × β)}
    (l2 : List (String × β)) {k : String} {v : β}
    (h : alookup l1 k = some v) : alookup (l1 ++ l2) k = some v := by
  induction l1 with
  | nil => simp [alookup] at h
  | cons p l ih =>
      rw [List.cons_append, alookup_cons]
      rw [alookup_cons] at h
      by_cases hp : p.1 = k
      · simpa [hp] using h
      · simp only [hp, if_false] at h ⊢
        exact ih h

theorem alookup_append_right {β : Type} {l1 : List (String × β)}
    (l2 : List (String × β)) {k : String}
    (h : alookup l1 k = none) : alookup (l1 ++ l2) k = alookup l2 k := by
  induction l1 with
  | nil => simp
  | cons p l ih =>
      rw [List.cons_append, alookup_cons]
      rw [alookup_cons] at h
      by_cases hp : p.1 = k
      · simp [hp] at h
      · simp only [hp, if_false] at h ⊢
        exact ih h

theorem aupdate_cons {β : Type} (p : String × β) (l : List (String × β))
    (k : String) (f : β → β) :
    aupdate (p :: l) k f =
      (if p.1 = k then (p.1, f p.2) else p) :: aupdate l k f := rfl

theorem alookup_aupdate {β : Type} (l : List (String × β)) (k : String)
    (f : β → β) (a : String) :
    alookup (aupdate l k f) a =
      if k = a then (alookup l a).map f else alookup l a := by
  induction l with
  | nil => by_cases h : k = a <;> simp [aupdate, alookup, h]
  | cons p l ih =>
      rw [aupdate_cons, alookup_cons, alookup_cons]
      by_cases hpk : p.1 = k
      · by_cases hka : k = a
        · subst hka
          simp [hpk, ih]
        · have hpa : p.1 ≠ a := fun hc => hka (hpk.symm.trans hc)
          simp [hpk, hpa, hka, ih]
      · by_cases hpa : p.1 = a
        · have hka : k ≠ a := fun hc => hpk (hpa.trans hc.symm)
          simp [hpk, hpa, hka, Ne.symm hka]
        · simp [hpk, hpa, ih]

theorem aupdate_keys {β : Type} (l : List (String × β)) (k : String)
    (f : β → β) : (aupdate l k f).map Prod.fst = l.map Prod.fst := by
  induction l with
  | nil => rfl
  | cons p l ih =>
      by_cases hp : p.1 = k <;> simp [aupdate, hp] at * <;> simpa using ih

theorem alookup_eq_none_iff {β : Type} (l : List (String × β)) (k : String) :
    alookup l k = none ↔ k ∉ l.map Prod.fst := by
  induction l with
  | nil => simp [alookup]
  | cons p l ih =>
      rw [alookup_cons]
      by_cases hp : p.1 = k
      · simp [hp]
      · simp [hp, ih, Ne.symm hp]

theorem alookup_of_mem_nodup {β : Type} {l : List (String × β)}
    (hnd : (l.map Prod.fst).Nodup) {k : String} {v : β}
    (h : (k, v) ∈ l) : alookup l k = some v := by
  induction l with
  | nil => simp at h
  | cons p l ih =>
      rw [alookup_cons]
      rcases List.mem_cons.mp h with h1 | h1
      · simp [← h1]
      · have hk : k ∈ l.map Prod.fst := List.mem_map.mpr ⟨(k, v), h1, rfl⟩
        have hp : p.1 ≠ k := by
          intro hc
          exact (List.nodup_cons.mp hnd).1 (hc ▸ hk)
        simp only [hp, if_false]
        exact ih (List.nodup_cons.mp hnd).2 h1

theorem aerase_cons {β : Type} (p : String × β) (l : List (String × β))
    (k : String) :
    aerase (p :: l) k = if p.1 = k then aerase l k else p :: aerase l k := by
  by_cases h : p.1 = k <;> simp [aerase, h]

theorem alookup_aerase {β : Type} (l : List (String × β)) (k a : String) :
    alookup (aerase l k) a = if k = a then none else alookup l a := by
  induction l with
  | nil => by_cases h : k = a <;> simp [aerase, alookup, h]
  | cons p l ih =>
      rw [aerase_cons]
      by_cases hpk : p.1 = k
      · by_cases hka : k = a
        · subst hka
          simp [hpk, ih]
        · have hpa : p.1 ≠ a := fun hc => hka (hpk.symm.trans hc)
          simp [hpk, hka, hpa, ih, alookup_cons]
      · rw [if_neg hpk]
        rw [alookup_cons, alookup_cons]
        by_cases hpa : p.1 = a
        · have hka : k ≠ a := fun hc => hpk (hpa.trans hc.symm)
          simp [hpa, hka]
        · simp [hpa, ih]

theorem mem_subNodesList {n : Node} : ∀ {l : List Node},
    n ∈ Node.subNodesList l ↔ ∃ m ∈ l, n ∈ m.subNodes := by
  intro l
  induction l with
  | nil => simp [Node.subNodesList]
  | cons m ms ih =>
      simp only [Node.subNodesList, List.mem_append, ih, List.mem_cons]
      constructor
      · rintro (h | ⟨m2, hm2, hn⟩)
        · exact ⟨m, Or.inl rfl, h⟩
        · exact ⟨m2, Or.inr hm2, hn⟩
      · rintro ⟨m2, (rfl | hm2), hn⟩
        · exact Or.inl hn
        · exact Or.inr ⟨m2, hm2, hn⟩

theorem mem_subNodes {n : Node} (f : NodeFields) (cs : List Node) :
    n ∈ (Node.node f cs).subNodes ↔
      n = Node.node f cs ∨ n ∈ Node.subNodesList cs := by
  simp [Node.subNodes]

/-- C5: `ChatSession.should_end_session()` returns true iff strictly more than
`timeout_minutes` have elapsed since `last_activity` or strictly more than
`max_duration_minutes` since `start_time`, for every session state (message
count and metrics included); at exact equality of either bound (the other not
exceeded) it returns false, and one unit past the idle bound it returns
true. -/
theorem shouldEndSession_iff (s : ChatSession) (now : Int) :
    ((s.shouldEndSession now).1 = true ↔
      (now - s.last_activity > s.timeout_minutes * usPerMinute ∨
        now - s.start_time > s.max_duration_minutes * usPerMinute)) ∧
    (now - s.last_activity = s.timeout_minutes * usPerMinute →
      now - s.start_time ≤ s.max_duration_minutes * usPerMinute →
      (s.shouldEndSession now).1 = false) ∧
    (now - s.start_time = s.max_duration_minutes * usPerMinute →
      now - s.last_activity ≤ s.timeout_minutes * usPerMinute →
      (s.shouldEndSession now).1 = false) ∧
    (now - s.last_activity = s.timeout_minutes * usPerMinute + 1 →
      (s.shouldEndSession now).1 = true) := by
  unfold ChatSession.shouldEndSession
  dsimp only
  refine ⟨?_, ?_, ?_, ?_⟩
  · split_ifs with ht hm
    · simpa using Or.inl ht
    · simpa using Or.inr hm
    · simpa using not_or.mpr ⟨ht, hm⟩
  · intro h1 h2
    split_ifs with ht hm
    · exfalso; linarith
    · exfalso; linarith
    · rfl
  · intro h1 h2
    split_ifs with ht hm
    · exfalso; linarith
    · exfalso; linarith
    · rfl
  · intro h1
    split_ifs with ht hm
    · rfl
    · rfl
    · exfalso
      apply ht
      rw [h1]
      linarith

/-- Witness for `shouldEndSession_iff`: at the exact idle bound the session is
kept, one microsecond past it the session ends. -/
theorem shouldEndSession_iff_witness :
    ((({ timeout_minutes := 30, max_duration_minutes := 240 } :
        ChatSession).shouldEndSession (30 * usPerMinute)).1 = false) ∧
    ((({ timeout_minutes := 30, max_duration_minutes := 240 } :
        ChatSession).shouldEndSession (30 * usPerMinute + 1)).1 = true) :=
  ⟨(shouldEndSession_iff _ _).2.1 (by decide) (by decide),
    (shouldEndSession_iff _ _).2.2.2 (by decide)⟩

/-- C8: for a span lacking a `trace_id`, `process_span` is a no-op apart from
a logged warning: it creates no trace assignment and appends to no
processor's buffer (and, being total, raises nothing). -/
theorem processSpan_missing_trace_id (st : CollectorState) (sd : Span)
    (h : sd.trace_id = none) :
    (st.processSpan sd).trace_processors = st.trace_processors ∧
    (st.processSpan sd).lgProcessor = st.lgProcessor ∧
    (st.processSpan sd).lcProcessor = st.lcProcessor ∧
    (st.processSpan sd).warnings =
      st.warnings ++ ["Span has no trace_id, skipping"] := by
  simp [CollectorState.processSpan, h, truthy]

/-- Witness for `processSpan_missing_trace_id` on the empty collector and the
all-absent span. -/
theorem processSpan_missing_trace_id_witness :
    (CollectorState.init.processSpan {}).trace_processors =
        CollectorState.init.trace_processors ∧
    (CollectorState.init.processSpan {}).lgProcessor =
        CollectorState.init.lgProcessor ∧
    (CollectorState.init.processSpan {}).lcProcessor =
        CollectorState.init.lcProcessor ∧
    (CollectorState.init.processSpan {}).warnings =
        CollectorState.init.warnings ++ ["Span has no trace_id, skipping"] :=
  processSpan_missing_trace_id CollectorState.init {} rfl

theorem finalizeTrace_known {st : CollectorState} {tid : String}
    {fw : Framework} (h : alookup st.trace_processors tid = some fw) :
    (st.finalizeTrace tid).trace_processors = aerase st.trace_processors tid ∧
    (st.finalizeTrace tid).lgProcessor = st.lgProcessor ∧
    (st.finalizeTrace tid).lcProcessor = st.lcProcessor := by
  cases fw
  · simp [CollectorState.finalizeTrace, h]
  · cases hr : st.lgProcessor.processTrace tid <;>
      simp [CollectorState.finalizeTrace, h, hr]

/-- C4: `finalize_trace` never escapes to its caller (it is total here) and
manages the map exactly as claimed: an unknown trace_id only logs a warning
and leaves the map untouched; a known trace_id is removed from the map
whether reconstruction succeeded or threw (the `finally` block), every other
trace_id keeps its assignment, and neither shared processor's state is
modified. -/
theorem finalizeTrace_contract (st : CollectorState) (tid : String) :
    (alookup st.trace_processors tid = none →
      (st.finalizeTrace tid).trace_processors = st.trace_processors ∧
      (st.finalizeTrace tid).warnings =
        st.warnings ++ ["No processor found for trace " ++ tid]) ∧
    ((alookup st.trace_processors tid).isSome = true →
      alookup (st.finalizeTrace tid).trace_processors tid = none ∧
      ∀ t2, t2 ≠ tid →
        alookup (st.finalizeTrace tid).trace_processors t2 =
          alookup st.trace_processors t2) ∧
    (st.finalizeTrace tid).lgProcessor = st.lgProcessor ∧
    (st.finalizeTrace tid).lcProcessor = st.lcProcessor := by
  refine ⟨fun h => ?_, fun h => ?_, ?_, ?_⟩
  · simp [CollectorState.finalizeTrace, h]
  · obtain ⟨fw, hfw⟩ := Option.isSome_iff_exists.mp h
    obtain ⟨he, _, _⟩ := finalizeTrace_known hfw
    rw [he]
    refine ⟨?_, ?_⟩
    · simp [alookup_aerase]
    · intro t2 ht2
      simp [alookup_aerase, Ne.symm ht2]
  · by_cases h : alookup st.trace_processors tid = none
    · simp [CollectorState.finalizeTrace, h]
    · obtain ⟨fw, hfw⟩ := Option.ne_none_iff_exists'.mp h
      exact (finalizeTrace_known hfw).2.1
  · by_cases h : alookup st.trace_processors tid = none
    · simp [CollectorState.finalizeTrace, h]
    · obtain ⟨fw, hfw⟩ := Option.ne_none_iff_exists'.mp h
      exact (finalizeTrace_known hfw).2.2

/-- Witness for `finalizeTrace_contract`: finalizing an unknown id on the
fresh collector only logs; finalizing a known id removes exactly that id. -/
theorem finalizeTrace_contract_witness :
    ((CollectorState.init.finalizeTrace "missing").trace_processors =
        CollectorState.init.trace_processors ∧
      (CollectorState.init.finalizeTrace "missing").warnings =
        CollectorState.init.warnings ++ ["No processor found for trace " ++ "missing"]) ∧
    (alookup (({ trace_processors := [("t1", Framework.langgraph)] } :
        CollectorState).finalizeTrace "t1").trace_processors "t1" = none) :=
  ⟨(finalizeTrace_contract CollectorState.init "missing").1 rfl,
    (((finalizeTrace_contract
        ({ trace_processors := [("t1", Framework.langgraph)] } : CollectorState)
        "t1").2.1) (by decide)).1⟩

theorem shouldEndSession_timeout {s : ChatSession} {now : Int}
    (hidle : now - s.last_activity > s.timeout_minutes * usPerMinute) :
    s.shouldEndSession now =
      (true, { s with status := "timeout" }, s.timeout_callbacks) := by
  unfold ChatSession.shouldEndSession
  dsimp only
  rw [if_pos hidle]
  rfl

/-- C6: a tracked session whose idle time strictly exceeds its timeout bound
is removed by one `cleanup_expired_sessions()` call, the removed session's
status is `'timeout'`, it is counted, and every callback registered on it is
invoked exactly once during the sweep (the event list is exactly the
registered callback list). -/
theorem cleanup_timeout_session (sid : String) (s : ChatSession) (now : Int)
    (hidle : now - s.last_activity > s.timeout_minutes * usPerMinute) :
    ((ChatSessionManager.mk [(sid, s)]).cleanupExpiredSessions now).1.sessions = [] ∧
    ((ChatSessionManager.mk [(sid, s)]).cleanupExpiredSessions now).2.1 = 1 ∧
    ((ChatSessionManager.mk [(sid, s)]).cleanupExpiredSessions now).2.2.1 =
      s.timeout_callbacks ∧
    ((ChatSessionManager.mk [(sid, s)]).cleanupExpiredSessions now).2.2.2 =
      [(sid, { s with status := "timeout", end_time := some now })] := by
  have hs := shouldEndSession_timeout hidle
  refine ⟨?_, ?_, ?_, ?_⟩ <;>
    simp [ChatSessionManager.cleanupExpiredSessions, hs, alookup_cons,
      ChatSession.endSession]

/-- Witness for `cleanup_timeout_session`: `last_activity` 31 minutes in the
past with `timeout_minutes = 30`. -/
theorem cleanup_timeout_session_witness :
    ((ChatSessionManager.mk [("sess",
        { session_id := "sess", timeout_minutes := 30,
          max_duration_minutes := 240, start_time := 0, last_activity := 0,
          timeout_callbacks := ["on_timeout"] })]).cleanupExpiredSessions
        (31 * usPerMinute)).1.sessions = [] ∧
    ((ChatSessionManager.mk [("sess",
        { session_id := "sess", timeout_minutes := 30,
          max_duration_minutes := 240, start_time := 0, last_activity := 0,
          timeout_callbacks := ["on_timeout"] })]).cleanupExpiredSessions
        (31 * usPerMinute)).2.1 = 1 ∧
    ((ChatSessionManager.mk [("sess",
        { session_id := "sess", timeout_minutes := 30,
          max_duration_minutes := 240, start_time := 0, last_activity := 0,
          timeout_callbacks := ["on_timeout"] })]).cleanupExpiredSessions
        (31 * usPerMinute)).2.2.1 =
      ({ session_id := "sess", timeout_minutes := 30,
          max_duration_minutes := 240, start_time := 0, last_activity := 0,
          timeout_callbacks := ["on_timeout"] } : ChatSession).timeout_callbacks ∧
    ((ChatSessionManager.mk [("sess",
        { session_id := "sess", timeout_minutes := 30,
          max_duration_minutes := 240, start_time := 0, last_activity := 0,
          timeout_callbacks := ["on_timeout"] })]).cleanupExpiredSessions
        (31 * usPerMinute)).2.2.2 =
      [("sess",
        { session_id := "sess", timeout_minutes := 30,
          max_duration_minutes := 240, start_time := 0, last_activity := 0,
          status := "timeout", end_time := some (31 * usPerMinute),
          timeout_callbacks := ["on_timeout"] })] :=
  cleanup_timeout_session "sess"
    { session_id := "sess", timeout_minutes := 30, max_duration_minutes := 240,
      start_time := 0, last_activity := 0, timeout_callbacks := ["on_timeout"] }
    (31 * usPerMinute) (by decide)

/-- C3 (observed): a session past its max duration but within its idle
timeout is removed and counted by `cleanup_expired_sessions()` and its
callbacks fire once, and `should_end_session` does transiently set `'ended'`
— but the sweep's unconditional `end_session("timeout")` overwrites it, so
the removed session's final status is `'timeout'`, not `'ended'`. -/
theorem cleanup_maxduration_final_status :
    ((ChatSessionManager.mk [("long", sessionLongRun)]).cleanupExpiredSessions
        (241 * usPerMinute)).1.sessions = [] ∧
    ((ChatSessionManager.mk [("long", sessionLongRun)]).cleanupExpiredSessions
        (241 * usPerMinute)).2.1 = 1 ∧
    ((ChatSessionManager.mk [("long", sessionLongRun)]).cleanupExpiredSessions
        (241 * usPerMinute)).2.2.1 = ["on_timeout"] ∧
    (sessionLongRun.shouldEndSession (241 * usPerMinute)).2.1.status = "ended" ∧
    ((ChatSessionManager.mk [("long", sessionLongRun)]).cleanupExpiredSessions
        (241 * usPerMinute)).2.2.2.map (fun p => p.2.status) = ["timeout"] := by
  decide

theorem count_flatten_replicate (n : Nat) (l : List String) (c : String) :
    ((List.replicate n l).flatten).count c = n * l.count c := by
  induction n with
  | zero => simp
  | succ k ih =>
      simp [List.replicate_succ, ih, Nat.succ_mul, Nat.add_comm]

theorem iterShouldEnd_expired (now : Int) :
    ∀ (n : Nat) (s : ChatSession),
      now - s.last_activity > s.timeout_minutes * usPerMinute →
      (iterShouldEnd s now n).2 = (List.replicate n s.timeout_callbacks).flatten := by
  intro n
  induction n with
  | zero => intro s _; rfl
  | succ k ih =>
      intro s h
      rw [iterShouldEnd, shouldEndSession_timeout h]
      dsimp only
      rw [ih _ (by simpa using h)]
      simp [List.replicate_succ]

/-- C10 (implicit): `should_end_session` is not a pure query — whenever it
returns true it has already set `status` to `'timeout'` or `'ended'` and
synchronously invoked every registered callback before returning; it never
touches the clocks or the callback list, so `n` consecutive calls on a
still-expired session invoke each registered callback `n` times,
independently of `cleanup_expired_sessions`. -/
theorem shouldEndSession_effects (s : ChatSession) (now : Int) (n : Nat)
    (hidle : now - s.last_activity > s.timeout_minutes * usPerMinute) :
    (∀ (s2 : ChatSession) (now2 : Int), (s2.shouldEndSession now2).1 = true →
      ((s2.shouldEndSession now2).2.1.status = "timeout" ∨
        (s2.shouldEndSession now2).2.1.status = "ended") ∧
      (s2.shouldEndSession now2).2.2 = s2.timeout_callbacks) ∧
    (iterShouldEnd s now n).2 = (List.replicate n s.timeout_callbacks).flatten ∧
    ∀ c, (iterShouldEnd s now n).2.count c = n * s.timeout_callbacks.count c := by
  refine ⟨?_, iterShouldEnd_expired now n s hidle, fun c => ?_⟩
  · intro s2 now2 h
    unfold ChatSession.shouldEndSession at h ⊢
    dsimp only at h ⊢
    split_ifs at h ⊢ with ht hm
    · exact ⟨Or.inl rfl, rfl⟩
    · exact ⟨Or.inr rfl, rfl⟩
  · rw [iterShouldEnd_expired now n s hidle, count_flatten_replicate]

/-- Witness for `shouldEndSession_effects`: three consecutive calls on an
expired session fire its one callback three times. -/
theorem shouldEndSession_effects_witness :
    (iterShouldEnd
        { session_id := "sess", timeout_minutes := 30,
          max_duration_minutes := 240, start_time := 0, last_activity := 0,
          timeout_callbacks := ["on_timeout"] } (31 * usPerMinute) 3).2 =
      (List.replicate 3 ["on_timeout"]).flatten :=
  (shouldEndSession_effects
    { session_id := "sess", timeout_minutes := 30, max_duration_minutes := 240,
      start_time := 0, last_activity := 0, timeout_callbacks := ["on_timeout"] }
    (31 * usPerMinute) 3 (by decide)).2.1

/-- C1 (observed): the collector stores references to the *shared* singleton
processors created once in `__init__`; two distinct trace ids both detected
as LangGraph are assigned the same processor instance, so the buffer used by
`finalize_trace("t1")` also contains the `"t2"` span, and a `"t1"` span
arriving after finalization lands in the same still-populated processor
(spans and agent state non-empty) rather than a fresh, empty one. -/
theorem processor_sharing_and_reuse :
    (((CollectorState.init.processSpan spanT1).processSpan spanT2).trace_processors =
      [("t1", Framework.langgraph), ("t2", Framework.langgraph)]) ∧
    (((CollectorState.init.processSpan spanT1).processSpan spanT2).lgProcessor.spans =
      [spanT1, spanT2]) ∧
    (((((CollectorState.init.processSpan spanT1).processSpan spanT2).finalizeTrace
        "t1").processSpan spanT1).lgProcessor.spans = [spanT1, spanT2, spanT1]) ∧
    (((((CollectorState.init.processSpan spanT1).processSpan spanT2).finalizeTrace
        "t1").processSpan spanT1).lgProcessor.agents.map Prod.fst = ["a1", "a2"]) := by
  decide

/-- C2 (observed): for the Scenario B spans the two orchestrated agents are
routed into `self.agent_orchestrations`, which `process_trace` never reads
back, so finalize yields one session root with a *single* level-2 default
bucket whose only agent child is "explainer"; the "o1" bucket node and the
"developer"/"summarizer" agents are absent from the tree (though the bucket
was counted in the metadata). -/
theorem scenarioB_orchestrated_agents_dropped :
    (((scenarioBState.processTrace "t").map
        (fun ht => ht.agents.map Node.name)).toOption =
      some ["chat_session_s1", "agent_orchestration"]) ∧
    (((scenarioBState.processTrace "t").map
        (fun ht => ht.agents.map Node.level)).toOption = some [1, 2]) ∧
    (((scenarioBState.processTrace "t").map
        (fun ht => (Node.subNodesList ht.agents).map Node.name)).toOption =
      some ["chat_session_s1", "agent_orchestration", "explainer",
        "agent_orchestration", "explainer"]) ∧
    (((scenarioBState.processTrace "t").map
        (fun ht =>
          ((Node.subNodesList ht.agents).map Node.name).contains
            "developer")).toOption = some false) ∧
    (((scenarioBState.processTrace "t").map
        (fun ht =>
          ((Node.subNodesList ht.agents).map Node.name).contains
            "summarizer")).toOption = some false) ∧
    (((scenarioBState.processTrace "t").map
        (fun ht => ht.metadata.orchestration_count)).toOption = some 1) := by
  decide

theorem processTrace_ok (st : LGState) (tid : String) :
    (st.processTrace tid).isOk = true := by
  unfold LGState.processTrace
  rcases hp : extractSessionIds st.spans none with ⟨tsid, csid⟩
  cases csid with
  | none => rfl
  | some c =>
      by_cases h : truthy (some c)
      · simp only [h, if_true]
        rfl
      · simp only [h]
        rfl

/-- C9: reconstruction is total on missing optional fields — for every span
stream, with any subset of the optional fields absent on any span, `add_span`
followed by `process_trace` completes without raising (the only raising
subscript, `chat_session_id[:8]`, is guarded by the truthiness test that
selects the session branch); and a span with every optional field absent
yields a node carrying the empty-string/zero/None defaults. -/
theorem processTrace_total_on_missing_fields (spans : List Span) (tid : String) :
    ((buildLGState spans).processTrace tid).isOk = true ∧
    (((LGState.init.addSpan { trace_id := some "t" }).processTrace "t").toOption.map
        (fun ht => ht.agents.map (fun n => { n.fields with total_cost := some 0 })) =
      some [{ name := "", level := 1, component_type := "agent",
              parent_agent_id := none, session_id := none, chat_session_id := none,
              start_time := none, end_time := none, duration := some 0,
              status := "completed", total_tokens := some 0, total_cost := some 0,
              model_info := {} }]) ∧
    (((LGState.init.addSpan { trace_id := some "t" }).processTrace "t").toOption.map
        (fun ht => ht.agents.map (fun n => n.fields.total_cost)) =
      some [some 0]) := by
  refine ⟨processTrace_ok (buildLGState spans) tid, by decide, ?_⟩
  have h0 : (List.map costOf [({ trace_id := some "t" } : Span)]).sum = (0 : ℚ) := by
    simp [costOf]
  calc ((LGState.init.addSpan { trace_id := some "t" }).processTrace "t").toOption.map
        (fun ht => ht.agents.map (fun n => n.fields.total_cost))
      = some [some ((List.map costOf [({ trace_id := some "t" } : Span)]).sum)] := rfl
    _ = some [some 0] := by rw [h0]

theorem addSpan_agents (st : LGState) (sd : Span) :
    (st.addSpan sd).agents =
      if truthy sd.agent_orchestration_id then st.agents
      else
        aupdate
          (if (alookup st.agents (sd.agent_name.getD "")).isNone then
            st.agents ++ [(sd.agent_name.getD "",
              { name := sd.agent_name.getD ""
                level := levelOf (sd.component_type.getD "agent")
                component_type := sd.component_type.getD "agent"
                parent_agent_id := none
                spans := [] })]
          else st.agents)
          (sd.agent_name.getD "")
          (fun a => { a with spans := a.spans ++ [sd] }) := by
  unfold LGState.addSpan
  dsimp only
  by_cases h : truthy sd.agent_orchestration_id
  · simp only [h, if_true]
    split <;> rfl
  · simp only [h, Bool.false_eq_true, false_and, if_false]
    split <;> rfl


theorem addSpan_agents_inv (st : LGState) (sd : Span) (past : List Span)
    (h1 : ∀ a ad, alookup st.agents a = some ad →
      ad.name = a ∧ ad.agent_orchestration_id = none ∧
      ad.spans = past.filter (standaloneWithName a))
    (h2 : ∀ a, alookup st.agents a = none →
      past.filter (standaloneWithName a) = [])
    (h3 : (st.agents.map Prod.fst).Nodup) :
    (∀ a ad, alookup (st.addSpan sd).agents a = some ad →
      ad.name = a ∧ ad.agent_orchestration_id = none ∧
      ad.spans = (past ++ [sd]).filter (standaloneWithName a)) ∧
    (∀ a, alookup (st.addSpan sd).agents a = none →
      (past ++ [sd]).filter (standaloneWithName a) = []) ∧
    ((st.addSpan sd).agents.map Prod.fst).Nodup := by
  rw [addSpan_agents]
  by_cases ho : truthy sd.agent_orchestration_id
  · simp only [ho, if_true]
    have hf : ∀ a, (past ++ [sd]).filter (standaloneWithName a) =
        past.filter (standaloneWithName a) := by
      intro a
      rw [List.filter_append]
      simp [standaloneWithName, ho]
    refine ⟨fun a ad h => ?_, fun a h => ?_, h3⟩
    · obtain ⟨n1, n2, n3⟩ := h1 a ad h
      exact ⟨n1, n2, by rw [hf a]; exact n3⟩
    · rw [hf a]
      exact h2 a h
  · simp only [ho, Bool.false_eq_true, if_false]
    have hfilter : ∀ a, (past ++ [sd]).filter (standaloneWithName a) =
        past.filter (standaloneWithName a) ++
          (if sd.agent_name.getD "" = a then [sd] else []) := by
      intro a
      rw [List.filter_append]
      by_cases ha : sd.agent_name.getD "" = a
      · simp [List.filter, standaloneWithName, ho, beq_iff_eq, ha]
      · have hb : (sd.agent_name.getD "" == a) = false :=
          beq_eq_false_iff_ne.mpr ha
        simp [List.filter, standaloneWithName, ho, hb]
        exact ha
    by_cases hnew : (alookup st.agents (sd.agent_name.getD "")).isNone
    · have hnone : alookup st.agents (sd.agent_name.getD "") = none :=
        Option.isNone_iff_eq_none.mp hnew
      simp only [hnew, if_true]
      have happ : ∀ a, a ≠ sd.agent_name.getD "" →
          alookup (st.agents ++ [(sd.agent_name.getD "",
            ({ name := sd.agent_name.getD ""
               level := levelOf (sd.component_type.getD "agent")
               component_type := sd.component_type.getD "agent"
               parent_agent_id := none
               spans := [] } : AgentData))]) a = alookup st.agents a := by
        intro a ha
        cases hx : alookup st.agents a with
        | some v => exact alookup_append_left _ hx
        | none =>
            rw [alookup_append_right _ hx, alookup_cons]
            simp [alookup, Ne.symm ha]
      have hatan : alookup (st.agents ++ [(sd.agent_name.getD "",
          ({ name := sd.agent_name.getD ""
             level := levelOf (sd.component_type.getD "agent")
             component_type := sd.component_type.getD "agent"
             parent_agent_id := none
             spans := [] } : AgentData))]) (sd.agent_name.getD "") =
          some ({ name := sd.agent_name.getD ""
                  level := levelOf (sd.component_type.getD "agent")
                  component_type := sd.component_type.getD "agent"
                  parent_agent_id := none
                  spans := [] } : AgentData) := by
        rw [alookup_append_right _ hnone, alookup_cons]
        simp
      refine ⟨fun a ad h => ?_, fun a h => ?_, ?_⟩
      · rw [alookup_aupdate] at h
        by_cases haan : sd.agent_name.getD "" = a
        · subst haan
          rw [if_pos rfl, hatan] at h
          simp only [Option.map_some'] at h
          obtain rfl := (Option.some.injEq _ _).mp h.symm
          refine ⟨rfl, rfl, ?_⟩
          rw [hfilter, h2 _ hnone, if_pos rfl]
        · rw [if_neg haan, happ a (fun hc => haan hc.symm)] at h
          obtain ⟨n1, n2, n3⟩ := h1 a ad h
          refine ⟨n1, n2, ?_⟩
          rw [hfilter, if_neg haan, List.append_nil]
          exact n3
      · rw [alookup_aupdate] at h
        by_cases haan : sd.agent_name.getD "" = a
        · subst haan
          rw [if_pos rfl, hatan] at h
          simp at h
        · rw [if_neg haan, happ a (fun hc => haan hc.symm)] at h
          rw [hfilter, if_neg haan, List.append_nil]
          exact h2 a h
      · rw [aupdate_keys, List.map_append]
        refine List.Nodup.append h3 (by simp) ?_
        intro x hx hmem
        simp only [List.map_cons, List.map_nil, List.mem_singleton] at hmem
        subst hmem
        exact ((alookup_eq_none_iff _ _).mp hnone) hx
    · cases hex : alookup st.agents (sd.agent_name.getD "") with
      | none =>
          rw [hex] at hnew
          simp at hnew
      | some ex =>
          simp only [Option.isNone_some, Bool.false_eq_true, if_false]
          refine ⟨fun a ad h => ?_, fun a h => ?_, ?_⟩
          · rw [alookup_aupdate] at h
            by_cases haan : sd.agent_name.getD "" = a
            · subst haan
              rw [if_pos rfl, hex] at h
              simp only [Option.map_some'] at h
              obtain rfl := (Option.some.injEq _ _).mp h.symm
              obtain ⟨n1, n2, n3⟩ := h1 _ ex hex
              refine ⟨n1, n2, ?_⟩
              rw [hfilter, if_pos rfl]
              exact congrArg (fun l => l ++ [sd]) n3
            · rw [if_neg haan] at h
              obtain ⟨n1, n2, n3⟩ := h1 a ad h
              refine ⟨n1, n2, ?_⟩
              rw [hfilter, if_neg haan, List.append_nil]
              exact n3
          · rw [alookup_aupdate] at h
            by_cases haan : sd.agent_name.getD "" = a
            · subst haan
              rw [if_pos rfl, hex] at h
              simp at h
            · rw [if_neg haan] at h
              rw [hfilter, if_neg haan, List.append_nil]
              exact h2 a h
          · rw [aupdate_keys]
            exact h3

theorem buildLGState_inv (spans : List Span) :
    (∀ a ad, alookup (buildLGState spans).agents a = some ad →
      ad.name = a ∧ ad.agent_orchestration_id = none ∧
      ad.spans = spans.filter (standaloneWithName a)) ∧
    (∀ a, alookup (buildLGState spans).agents a = none →
      spans.filter (standaloneWithName a) = []) ∧
    ((buildLGState spans).agents.map Prod.fst).Nodup := by
  have main : ∀ (rest : List Span) (st : LGState) (past : List Span),
      (∀ a ad, alookup st.agents a = some ad →
        ad.name = a ∧ ad.agent_orchestration_id = none ∧
        ad.spans = past.filter (standaloneWithName a)) →
      (∀ a, alookup st.agents a = none →
        past.filter (standaloneWithName a) = []) →
      ((st.agents.map Prod.fst).Nodup) →
      (∀ a ad, alookup (rest.foldl LGState.addSpan st).agents a = some ad →
        ad.name = a ∧ ad.agent_orchestration_id = none ∧
        ad.spans = (past ++ rest).filter (standaloneWithName a)) ∧
      (∀ a, alookup (rest.foldl LGState.addSpan st).agents a = none →
        (past ++ rest).filter (standaloneWithName a) = []) ∧
      (((rest.foldl LGState.addSpan st).agents.map Prod.fst).Nodup) := by
    intro rest
    induction rest with
    | nil =>
        intro st past p1 p2 p3
        rw [List.append_nil]
        exact ⟨p1, p2, p3⟩
    | cons sd rest ih =>
        intro st past p1 p2 p3
        obtain ⟨q1, q2, q3⟩ := addSpan_agents_inv st sd past p1 p2 p3
        have h := ih (st.addSpan sd) (past ++ [sd]) q1 q2 q3
        rw [show past ++ sd :: rest = (past ++ [sd]) ++ rest by simp]
        exact h
  have h := main spans LGState.init []
    (by intro a ad h; simp [alookup, LGState.init] at h)
    (fun a _ => rfl)
    (by simp [LGState.init])
  rw [List.nil_append] at h
  exact h

theorem mem_aupdate_cases {β : Type} {l : List (String × β)} {k : String}
    {f : β → β} {q : String × β} (h : q ∈ aupdate l k f) :
    ∃ r ∈ l, q = r ∨ q = (r.1, f r.2) := by
  obtain ⟨r, hr, hq⟩ := List.mem_map.mp h
  refine ⟨r, hr, ?_⟩
  by_cases hk : r.1 = k
  · right
    rw [← hq, hk]
    simp [hk]
  · left
    rw [← hq]
    simp [hk]

theorem buildAgentGroups_mem {ags : List (String × AgentData)}
    {q : String × AgentGroup} (hq : q ∈ buildAgentGroups ags)
    {b : AgentData} (hb : b ∈ q.2.agents ∨ b ∈ q.2.components) :
    b ∈ ags.map Prod.snd := by
  have main : ∀ (l : List (String × AgentData)) (acc : List (String × AgentGroup)),
      ∀ q2 ∈ l.foldl
        (fun groups p =>
          let orchestration_id := p.2.agent_orchestration_id.getD "default"
          let groups :=
            if (alookup groups orchestration_id).isNone then
              groups ++ [(orchestration_id, ({} : AgentGroup))]
            else groups
          if p.2.level = 2 then
            aupdate groups orchestration_id
              (fun g => { g with agents := g.agents ++ [p.2] })
          else
            aupdate groups orchestration_id
              (fun g => { g with components := g.components ++ [p.2] })) acc,
      ∀ c, (c ∈ q2.2.agents ∨ c ∈ q2.2.components) →
        (∃ r ∈ acc, c ∈ r.2.agents ∨ c ∈ r.2.components) ∨ c ∈ l.map Prod.snd := by
    intro l
    induction l with
    | nil =>
        intro acc q2 hq2 c hc
        exact Or.inl ⟨q2, hq2, hc⟩
    | cons p l ih =>
        intro acc q2 hq2 c hc
        rw [List.foldl_cons] at hq2
        rcases ih _ q2 hq2 c hc with ⟨r, hr, hcr⟩ | hl
        · dsimp only at hr
          have hbase : ∀ r0, r0 ∈ (if (alookup acc
                (p.2.agent_orchestration_id.getD "default")).isNone then
                  acc ++ [(p.2.agent_orchestration_id.getD "default",
                    ({} : AgentGroup))]
                else acc) →
              r0 ∈ acc ∨
                r0 = (p.2.agent_orchestration_id.getD "default",
                  ({} : AgentGroup)) := by
            intro r0 hr0
            by_cases hc0 : (alookup acc
                (p.2.agent_orchestration_id.getD "default")).isNone
            · rw [if_pos hc0] at hr0
              rcases List.mem_append.mp hr0 with h | h
              · exact Or.inl h
              · simp only [List.mem_singleton] at h
                exact Or.inr h
            · rw [if_neg hc0] at hr0
              exact Or.inl hr0
          by_cases hlv : p.2.level = 2
          · rw [if_pos hlv] at hr
            obtain ⟨r0, hr0, hcase⟩ := mem_aupdate_cases hr
            rcases hcase with heq | heq
            · rw [heq] at hcr
              rcases hbase r0 hr0 with h0 | hz
              · exact Or.inl ⟨r0, h0, hcr⟩
              · rw [hz] at hcr
                rcases hcr with h | h <;> simp at h
            · rw [heq] at hcr
              rcases hcr with hca | hcc
              · dsimp only at hca
                rcases List.mem_append.mp hca with h | h
                · rcases hbase r0 hr0 with h0 | hz
                  · exact Or.inl ⟨r0, h0, Or.inl h⟩
                  · rw [hz] at h
                    simp at h
                · simp only [List.mem_singleton] at h
                  subst h
                  exact Or.inr (by simp)
              · dsimp only at hcc
                rcases hbase r0 hr0 with h0 | hz
                · exact Or.inl ⟨r0, h0, Or.inr hcc⟩
                · rw [hz] at hcc
                  simp at hcc
          · rw [if_neg hlv] at hr
            obtain ⟨r0, hr0, hcase⟩ := mem_aupdate_cases hr
            rcases hcase with heq | heq
            · rw [heq] at hcr
              rcases hbase r0 hr0 with h0 | hz
              · exact Or.inl ⟨r0, h0, hcr⟩
              · rw [hz] at hcr
                rcases hcr with h | h <;> simp at h
            · rw [heq] at hcr
              rcases hcr with hca | hcc
              · dsimp only at hca
                rcases hbase r0 hr0 with h0 | hz
                · exact Or.inl ⟨r0, h0, Or.inl hca⟩
                · rw [hz] at hca
                  simp at hca
              · dsimp only at hcc
                rcases List.mem_append.mp hcc with h | h
                · rcases hbase r0 hr0 with h0 | hz
                  · exact Or.inl ⟨r0, h0, Or.inr h⟩
                  · rw [hz] at h
                    simp at h
                · simp only [List.mem_singleton] at h
                  subst h
                  exact Or.inr (by simp)
        · exact Or.inr (by simp [hl])
  unfold buildAgentGroups at hq
  rcases main ags [] q hq b hb with ⟨r, hr, _⟩ | h
  · simp at hr
  · exact h

theorem mem_subNodes_iff {n m : Node} :
    n ∈ m.subNodes ↔ n = m ∨ n ∈ Node.subNodesList m.children := by
  cases m with
  | node f cs => simp [Node.subNodes, Node.children]

theorem mkAgentNode_level (t c : Option String) (oname : String)
    (g : AgentGroup) (ad : AgentData) :
    (mkAgentNode t c oname g ad).level = 3 := rfl

theorem mkAgentNode_name (t c : Option String) (oname : String)
    (g : AgentGroup) (ad : AgentData) :
    (mkAgentNode t c oname g ad).fields.name = ad.name := rfl

theorem mkAgentNode_tokens (t c : Option String) (oname : String)
    (g : AgentGroup) (ad : AgentData) :
    (mkAgentNode t c oname g ad).fields.total_tokens =
      some ((ad.spans.map tokensOf).sum) := rfl

theorem mkAgentNode_children (t c : Option String) (oname : String)
    (g : AgentGroup) (ad : AgentData) :
    (mkAgentNode t c oname g ad).children =
      (g.components.filter
        (fun cd => cd.parent_agent_id = some ad.name)).map
        (mkComponentNode t c ad.name) := rfl

theorem mkComponentNode_level (t c : Option String) (an : String)
    (cd : AgentData) : (mkComponentNode t c an cd).level = 4 := rfl

theorem mkComponentNode_children (t c : Option String) (an : String)
    (cd : AgentData) : (mkComponentNode t c an cd).children = [] := rfl

theorem mkOrchestrationNode_level (t c : Option String) (sn : String)
    (pg : String × AgentGroup) : (mkOrchestrationNode t c sn pg).level = 2 := rfl

theorem mkOrchestrationNode_children (t c : Option String) (sn : String)
    (pg : String × AgentGroup) :
    (mkOrchestrationNode t c sn pg).children =
      pg.2.agents.map (mkAgentNode t c
        (if pg.1 ≠ "default" then "agent_orchestration_" ++ pg.1.take 8
         else "agent_orchestration") pg.2) := rfl

theorem mkStandaloneNode_level (t : Option String) (p : String × AgentData) :
    (mkStandaloneNode t p).level = 1 := rfl

theorem mkStandaloneNode_children (t : Option String) (p : String × AgentData) :
    (mkStandaloneNode t p).children = [] := rfl

theorem processTrace_level3_shape (st : LGState) (tid : String)
    (ht : HierarchicalTrace) (hok : st.processTrace tid = Except.ok ht) :
    ∀ n ∈ Node.subNodesList ht.agents, n.level = 3 →
      ∃ ad : AgentData, ad ∈ st.agents.map Prod.snd ∧
        n.fields.name = ad.name ∧
        n.fields.total_tokens = some ((ad.spans.map tokensOf).sum) := by
  unfold LGState.processTrace at hok
  rcases hp : extractSessionIds st.spans none with ⟨tsid, csid⟩
  rw [hp] at hok
  cases csid with
  | none =>
      simp only [truthy, Bool.false_eq_true, if_false, bind, Except.bind, pure,
        Except.pure, Except.ok.injEq] at hok
      subst hok
      intro n hn hlv
      rw [mem_subNodesList] at hn
      obtain ⟨m, hm, hnm⟩ := hn
      obtain ⟨p, hp2, rfl⟩ := List.mem_map.mp hm
      rw [mem_subNodes_iff, mkStandaloneNode_children] at hnm
      rcases hnm with rfl | hnil
      · rw [mkStandaloneNode_level] at hlv
        exact absurd hlv (by decide)
      · simp [Node.subNodesList] at hnil
  | some c =>
      by_cases h : truthy (some c)
      · simp only [h, if_true, pySubscript8, bind, Except.bind, pure,
          Except.pure, Except.ok.injEq] at hok
        subst hok
        have horch : ∀ n2, n2 ∈ Node.subNodesList
            (List.map (mkOrchestrationNode tsid (some c)
              ("chat_session_" ++ c.take 8)) (buildAgentGroups st.agents)) →
            n2.level = 3 →
            ∃ ad : AgentData, ad ∈ st.agents.map Prod.snd ∧
              n2.fields.name = ad.name ∧
              n2.fields.total_tokens = some ((ad.spans.map tokensOf).sum) := by
          intro n2 hn2 hlv2
          rw [mem_subNodesList] at hn2
          obtain ⟨m2, hm2, hn2m⟩ := hn2
          obtain ⟨pg, hpg, rfl⟩ := List.mem_map.mp hm2
          rw [mem_subNodes_iff, mkOrchestrationNode_children] at hn2m
          rcases hn2m with rfl | hn2m
          · rw [mkOrchestrationNode_level] at hlv2
            exact absurd hlv2 (by decide)
          · rw [mem_subNodesList] at hn2m
            obtain ⟨m3, hm3, hn3⟩ := hn2m
            obtain ⟨ad, had, rfl⟩ := List.mem_map.mp hm3
            rw [mem_subNodes_iff, mkAgentNode_children] at hn3
            rcases hn3 with rfl | hn3
            · exact ⟨ad, buildAgentGroups_mem hpg (Or.inl had),
                mkAgentNode_name _ _ _ _ _, mkAgentNode_tokens _ _ _ _ _⟩
            · rw [mem_subNodesList] at hn3
              obtain ⟨m4, hm4, hn4⟩ := hn3
              obtain ⟨cd, _, rfl⟩ := List.mem_map.mp hm4
              rw [mem_subNodes_iff, mkComponentNode_children] at hn4
              rcases hn4 with rfl | hn4
              · rw [mkComponentNode_level] at hlv2
                exact absurd hlv2 (by decide)
              · simp [Node.subNodesList] at hn4
        intro n hn hlv
        rw [mem_subNodesList] at hn
        obtain ⟨m, hm, hnm⟩ := hn
        simp only [List.mem_cons] at hm
        rcases hm with rfl | hm
        · rw [mem_subNodes_iff] at hnm
          rcases hnm with rfl | hnm
          · simp [Node.level, Node.fields] at hlv
          · exact horch n (by simpa [Node.children] using hnm) hlv
        · exact horch n (mem_subNodesList.mpr ⟨m, hm, hnm⟩) hlv
      · simp only [h, Bool.false_eq_true, if_false, bind, Except.bind, pure,
          Except.pure, Except.ok.injEq] at hok
        subst hok
        intro n hn hlv
        rw [mem_subNodesList] at hn
        obtain ⟨m, hm, hnm⟩ := hn
        obtain ⟨p, hp2, rfl⟩ := List.mem_map.mp hm
        rw [mem_subNodes_iff, mkStandaloneNode_children] at hnm
        rcases hnm with rfl | hnil
        · rw [mkStandaloneNode_level] at hlv
          exact absurd hlv (by decide)
        · simp [Node.subNodesList] at hnil

/-- C7: every level-3 agent node produced by reconstruction carries
`total_tokens` equal to the exact integer sum of
`input_tokens + output_tokens` (absent token fields counting as zero) over
exactly the spans accumulated under that agent's name — the buffered spans
with a falsy `agent_orchestration_id` whose `agent_name` matches the node's
name; level-4 child component spans are separate accumulation entries under
their own names and contribute nothing. -/
theorem level3_total_tokens (spans : List Span) (tid : String)
    (ht : HierarchicalTrace)
    (hok : (buildLGState spans).processTrace tid = Except.ok ht) :
    ∀ n ∈ Node.subNodesList ht.agents, n.level = 3 →
      n.fields.total_tokens =
        some (((spans.filter (standaloneWithName n.fields.name)).map
          tokensOf).sum) := by
  intro n hn hlv
  obtain ⟨ad, hmem, hname, htok⟩ :=
    processTrace_level3_shape _ tid ht hok n hn hlv
  obtain ⟨inv1, _, hnd⟩ := buildLGState_inv spans
  obtain ⟨⟨k, v⟩, hkv, rfl⟩ := List.mem_map.mp hmem
  have hlook := alookup_of_mem_nodup hnd hkv
  obtain ⟨hvname, _, hvspans⟩ := inv1 k v hlook
  rw [htok, hvspans, hname, hvname]

/-- Witness for `level3_total_tokens`: the "explainer" node of Scenario B
carries the token sum of exactly the standalone "explainer" spans. -/
theorem level3_total_tokens_witness :
    scenarioBAgentNode.fields.total_tokens =
      some ((([spanDeveloper, spanSummarizer, spanExplainer].filter
        (standaloneWithName scenarioBAgentNode.fields.name)).map
          tokensOf).sum) :=
  level3_total_tokens [spanDeveloper, spanSummarizer, spanExplainer] "t"
    scenarioBTrace rfl scenarioBAgentNode
    (by
      rw [show Node.subNodesList scenarioBTrace.agents =
          [scenarioBSessionNode, scenarioBOrchNode, scenarioBAgentNode,
            scenarioBOrchNode, scenarioBAgentNode] from rfl]
      exact List.mem_cons_of_mem _ (List.mem_cons_of_mem _
        (List.mem_cons_self _ _)))
    rfl
